import Mathlib

/-!
Verification of the authentication-and-transport configuration layer of
`terraform-provider-kafka` (`kafka/config.go`), shallowly embedded in Lean.

External library calls (Go stdlib `pem`, `x509`, `os.ReadFile`, the sarama
version parser, environment lookup) are modelled as oracle parameters; the
control flow of the repository's own functions is translated faithfully.
-/

namespace KafkaProvider

/-- `Config` from `kafka/config.go`, field for field and in source order.
`*[]string` pointers become `Option (List String)`; `int` becomes `Int`. -/
structure Config where
  BootstrapServers : Option (List String)
  Timeout : Int
  CACert : String
  ClientCert : String
  ClientCertKey : String
  ClientCertKeyPassphrase : String
  KafkaVersion : String
  TLSEnabled : Bool
  SkipTLSVerify : Bool
  SASLUsername : String
  SASLPassword : String
  SASLMechanism : String
  SASLAWSContainerAuthorizationTokenFile : String
  SASLAWSContainerCredentialsFullUri : String
  SASLAWSRegion : String
  SASLAWSRoleArn : String
  SASLAWSExternalId : String
  SASLAWSProfile : String
  SASLAWSAccessKey : String
  SASLAWSSecretKey : String
  SASLAWSToken : String
  SASLAWSCredsDebug : Bool
  SASLTokenUrl : String
  SASLAWSSharedConfigFiles : Option (List String)
  SASLOAuthScopes : List String
deriving Repr, DecidableEq

/-- The all-empty / all-false configuration, used as a base for concrete tests. -/
def emptyConfig : Config :=
  ⟨none, 0, "", "", "", "", "", false, false, "", "", "", "", "", "", "", "",
   "", "", "", "", false, "", none, []⟩

/-- `copyWithMaskedSensitiveValues` from `kafka/config.go`: a positional copy of
the receiver in which the 5th, 6th, 11th, 17th and 20th fields (`ClientCertKey`,
`ClientCertKeyPassphrase`, `SASLPassword`, `SASLAWSExternalId`,
`SASLAWSSecretKey`) are replaced by the literal `"*****"`. -/
def Config.copyWithMaskedSensitiveValues (config : Config) : Config :=
  ⟨config.BootstrapServers,
   config.Timeout,
   config.CACert,
   config.ClientCert,
   "*****",
   "*****",
   config.KafkaVersion,
   config.TLSEnabled,
   config.SkipTLSVerify,
   config.SASLUsername,
   "*****",
   config.SASLMechanism,
   config.SASLAWSContainerAuthorizationTokenFile,
   config.SASLAWSContainerCredentialsFullUri,
   config.SASLAWSRegion,
   config.SASLAWSRoleArn,
   "*****",
   config.SASLAWSProfile,
   config.SASLAWSAccessKey,
   "*****",
   config.SASLAWSToken,
   config.SASLAWSCredsDebug,
   config.SASLTokenUrl,
   config.SASLAWSSharedConfigFiles,
   config.SASLOAuthScopes⟩

/-- `(c *Config) saslEnabled()` from `kafka/config.go`. -/
def Config.saslEnabled (c : Config) : Bool :=
  c.SASLUsername != "" || c.SASLPassword != "" || c.SASLMechanism == "aws-iam"

/-! ### AWS credential-resolution strategy selection (`Config.Token`)

`(c *Config) Token()` dispatches on the configuration fields to one of the
strategies of the `aws-msk-iam-sasl-signer-go` library. The signer calls are
external; what the repository owns is the conditional chain choosing among
them, which `Config.tokenStrategy` reproduces branch for branch. -/

/-- One constructor per call site of the signer library inside
`Config.Token`, in source order. -/
inductive AwsCredStrategy
  | containerCreds
  | roleArn
  | profileWithSharedConfigFiles
  | profileOnly
  | staticCreds
  | defaultChain
deriving Repr, DecidableEq

/-- The conditional chain of `(c *Config) Token()` (`kafka/config.go`
lines 96-125), reduced to which signer entry point it selects. -/
def Config.tokenStrategy (c : Config) : AwsCredStrategy :=
  if c.SASLAWSContainerAuthorizationTokenFile != "" &&
      c.SASLAWSContainerCredentialsFullUri != "" then
    .containerCreds
  else if c.SASLAWSRoleArn != "" then
    .roleArn
  else if c.SASLAWSProfile != "" then
    if (match c.SASLAWSSharedConfigFiles with
        | some fs => decide (fs.length > 0)
        | none => false) then
      .profileWithSharedConfigFiles
    else
      .profileOnly
  else if c.SASLAWSAccessKey != "" && c.SASLAWSSecretKey != "" then
    .staticCreds
  else
    .defaultChain

/-- The five credential-resolution strategies as the spec enumerates them
(the named-profile strategy covers both profile sub-branches of the code). -/
inductive AwsCredStrategyClass
  | container
  | role
  | namedProfile
  | staticKeys
  | defaultChain
deriving Repr, DecidableEq

/-- Coarsening of the code's strategy onto the spec's five-way enumeration. -/
def AwsCredStrategy.toClass : AwsCredStrategy → AwsCredStrategyClass
  | .containerCreds => .container
  | .roleArn => .role
  | .profileWithSharedConfigFiles => .namedProfile
  | .profileOnly => .namedProfile
  | .staticCreds => .staticKeys
  | .defaultChain => .defaultChain

/-- Modelled from the spec: the applicability predicate of each strategy
("container-provided authorization token file + credentials endpoint URI",
"explicit role ARN", "named profile", "static access key + secret key",
"default/ambient credential chain"). -/
def awsStrategyApplies (c : Config) : AwsCredStrategyClass → Bool
  | .container => c.SASLAWSContainerAuthorizationTokenFile != "" &&
      c.SASLAWSContainerCredentialsFullUri != ""
  | .role => c.SASLAWSRoleArn != ""
  | .namedProfile => c.SASLAWSProfile != ""
  | .staticKeys => c.SASLAWSAccessKey != "" && c.SASLAWSSecretKey != ""
  | .defaultChain => true

/-- Modelled from the spec: the fixed precedence order of §4.4. -/
def specAwsPrecedenceOrder : List AwsCredStrategyClass :=
  [.container, .role, .namedProfile, .staticKeys, .defaultChain]

/-- Modelled from the spec: "evaluated in this precedence order, first match
wins". -/
def specAwsStrategy (c : Config) : AwsCredStrategyClass :=
  (specAwsPrecedenceOrder.find? (awsStrategyApplies c)).getD .defaultChain

/-! ### OAuth2 cached token provider (`oauthbearerTokenProvider.Token`)

Time is modelled as `Int` seconds (`time.Time` ordering and the
`-2 * time.Second` margin survive this abstraction). The
`oauth2Config.Token(ctx)` network exchange is an oracle supplied per call. -/

/-- The token returned by the external OAuth2 client-credentials exchange:
`AccessToken` plus `Expiry`. -/
structure OAuth2Token where
  AccessToken : String
  Expiry : Int
deriving Repr, DecidableEq

/-- Mutable state of `oauthbearerTokenProvider` (the `oauth2Config` collaborator
is passed to `tokenCall` as the oracle `exchange`). -/
structure OauthbearerTokenProvider where
  tokenExpiration : Int
  token : String
deriving Repr, DecidableEq

/-- `newOauthbearerTokenProvider`: zero time and empty token. -/
def newOauthbearerTokenProvider : OauthbearerTokenProvider := ⟨0, ""⟩

/-- Result of one `Token()` call: the `sarama.AccessToken` string paired with
the Go error value, the updated provider state, and whether the
client-credentials exchange was performed during this call. -/
structure OauthTokenCallResult where
  accessToken : String
  err : Option String
  state : OauthbearerTokenProvider
  exchanged : Bool
deriving Repr, DecidableEq

/-- `(o *oauthbearerTokenProvider) Token()` from `kafka/config.go` lines 69-89.
`currentTime` stands for `time.Now()`; `exchange` for the outcome of
`o.oauth2Config.Token(ctx)`. The cached branch requires a non-empty token and
`currentTime.Before(o.tokenExpiration.Add(-2s))`. -/
def OauthbearerTokenProvider.tokenCall (o : OauthbearerTokenProvider)
    (currentTime : Int) (exchange : Except String OAuth2Token) :
    OauthTokenCallResult :=
  if o.token != "" && decide (currentTime < o.tokenExpiration - 2) then
    ⟨o.token, none, o, false⟩
  else
    match exchange with
    | .ok t => ⟨t.AccessToken, none, ⟨t.Expiry, t.AccessToken⟩, true⟩
    | .error e => ⟨"", some e, o, true⟩

/-! ### Certificate material loading and TLS context construction

`pem.Decode`, `os.ReadFile`, `x509.IsEncryptedPEMBlock`, `x509.DecryptPEMBlock`,
`pem.EncodeToMemory`, `tls.X509KeyPair`, `x509.SystemCertPool` and
`(*x509.CertPool).AppendCertsFromPEM` are Go standard-library calls; they are
modelled as an oracle record `TLSWorld`, with byte slices as `String`. The
repository's own control flow over them is translated exactly. -/

/-- A decoded `pem.Block` (`Type` and `Bytes`; headers stay behind the
`isEncryptedPEMBlock` oracle). -/
structure PemBlock where
  typeName : String
  bytes : String
deriving Repr, DecidableEq

/-- An opaque `tls.Certificate` as produced by `tls.X509KeyPair`. -/
structure Certificate where
  raw : String
deriving Repr, DecidableEq

/-- An opaque `x509.CertPool`. -/
structure CertPool where
  certs : List String
deriving Repr, DecidableEq

/-- Oracles for the Go standard-library calls made by the TLS code path.
`readFile` returns the file contents or the `os.ReadFile` error message;
`decryptPEMBlock` takes the block and the passphrase; `x509KeyPair` takes the
certificate bytes and the (possibly re-encoded) key bytes;
`appendCertsFromPEM` returns the grown pool and the `ok` flag. -/
structure TLSWorld where
  pemDecode : String → Option PemBlock
  readFile : String → Except String String
  isEncryptedPEMBlock : PemBlock → Bool
  decryptPEMBlock : PemBlock → String → Except String String
  pemEncodeToMemory : PemBlock → String
  x509KeyPair : String → String → Except String Certificate
  systemCertPool : Option CertPool
  appendCertsFromPEM : CertPool → String → CertPool × Bool

/-- Failure modes of `parsePemOrLoadFromFile`: the `os.ReadFile` error
(spec taxonomy `MaterialNotFound`) or the "unable to decode pem" error
(spec taxonomy `InvalidEncoding`). -/
inductive PemLoadError
  | materialNotFound (msg : String)
  | invalidEncoding
deriving Repr, DecidableEq

/-- `parsePemOrLoadFromFile` from `kafka/config.go` lines 233-252. The first
component is the Go `(block, bytes, err)` result; the second lists the file
paths passed to `os.ReadFile` during the call. -/
def parsePemOrLoadFromFile (w : TLSWorld) (input : String) :
    Except PemLoadError (PemBlock × String) × List String :=
  match w.pemDecode input with
  | some inputBlock => (.ok (inputBlock, input), [])
  | none =>
    match w.readFile input with
    | .error e => (.error (.materialNotFound e), [input])
    | .ok inputBytes =>
      match w.pemDecode inputBytes with
      | some inputBlock => (.ok (inputBlock, inputBytes), [input])
      | none => (.error .invalidEncoding, [input])

/-- Failure modes of `newTLSConfig`, by source return site. -/
inductive TLSError
  | certLoad (e : PemLoadError)
  | keyLoad (e : PemLoadError)
  | decryptionFailed (msg : String)
  | keyPairMismatch (msg : String)
  | caLoad (e : PemLoadError)
  | invalidCA
deriving Repr, DecidableEq

/-- The produced `tls.Config`: the fields the repository assigns. -/
structure TLSConfig where
  Certificates : List Certificate
  RootCAs : Option CertPool
  InsecureSkipVerify : Bool
deriving Repr, DecidableEq

/-- The client-certificate stage of `newTLSConfig` (lines 257-291): when both
`clientCert` and `clientKey` are non-empty, load both, decrypt the key if its
block is encrypted, and pair them; otherwise produce no certificate. -/
def clientCertStage (w : TLSWorld) (clientCert clientKey clientKeyPassphrase : String) :
    Except TLSError (List Certificate) :=
  if clientCert != "" && clientKey != "" then
    match (parsePemOrLoadFromFile w clientCert).1 with
    | .error e => .error (.certLoad e)
    | .ok (_, certBytes) =>
      match (parsePemOrLoadFromFile w clientKey).1 with
      | .error e => .error (.keyLoad e)
      | .ok (keyBlock, keyBytes0) =>
        let keyBytesE : Except TLSError String :=
          if w.isEncryptedPEMBlock keyBlock then
            match w.decryptPEMBlock keyBlock clientKeyPassphrase with
            | .error e => .error (.decryptionFailed e)
            | .ok decrypted => .ok (w.pemEncodeToMemory ⟨keyBlock.typeName, decrypted⟩)
          else .ok keyBytes0
        match keyBytesE with
        | .error e => .error e
        | .ok keyBytes =>
          match w.x509KeyPair certBytes keyBytes with
          | .error e => .error (.keyPairMismatch e)
          | .ok cert => .ok [cert]
  else .ok []

/-- `newTLSConfig` from `kafka/config.go` lines 254-316, returning the Go
`(config, error)` pair. On an error in the client-certificate stage the
returned config is still the zero `tls.Config`; on an error in the CA stage
the certificates loaded so far are kept, exactly as the source's early
returns of `&tlsConfig` do. -/
def newTLSConfig (w : TLSWorld) (clientCert clientKey caCert clientKeyPassphrase : String) :
    TLSConfig × Option TLSError :=
  match clientCertStage w clientCert clientKey clientKeyPassphrase with
  | .error e => (⟨[], none, false⟩, some e)
  | .ok certs =>
    let tlsConfig : TLSConfig := ⟨certs, none, false⟩
    if caCert == "" then
      (tlsConfig, none)
    else
      let caCertPool := match w.systemCertPool with
        | some p => p
        | none => ⟨[]⟩
      match (parsePemOrLoadFromFile w caCert).1 with
      | .error e => (tlsConfig, some (.caLoad e))
      | .ok (_, caBytes) =>
        let appended := w.appendCertsFromPEM caCertPool caBytes
        if !appended.2 then
          (tlsConfig, some .invalidCA)
        else
          ({ tlsConfig with RootCAs := some appended.1 }, none)

/-! ### Transport configuration assembly (`Config.newKafkaConfig`)

`sarama.ParseKafkaVersion` is external and becomes an oracle
`parse : String → Option KafkaVersion`; `os.Getenv` becomes an explicit `Env`
record. `log.Fatalf` terminates the process, modelled as the distinguished
outcome `BuildOutcome.fatal`. -/

/-- `sarama.KafkaVersion`: four version components. -/
structure KafkaVersion where
  major : Nat
  minor : Nat
  veryMinor : Nat
  patch : Nat
deriving Repr, DecidableEq

/-- `sarama.V2_7_0_0`, the baseline default of line 139. -/
def V2_7_0_0 : KafkaVersion := ⟨2, 7, 0, 0⟩

/-- The two environment variables consulted by `newKafkaConfig`
(`os.Getenv` of an unset variable yields `""`). -/
structure Env where
  AWS_REGION : String
  TOKEN_URL : String
deriving Repr, DecidableEq

/-- The environment with both variables unset. -/
def emptyEnv : Env := ⟨"", ""⟩

/-- The hash bound by a SCRAM client generator (`SHA256` / `SHA512`). -/
inductive ScramHash
  | sha256
  | sha512
deriving Repr, DecidableEq

/-- The `clientcredentials.Config` assembled for the `oauthbearer` mechanism
(lines 181-186). -/
structure ClientCredentialsConfig where
  TokenURL : String
  ClientID : String
  ClientSecret : String
  Scopes : List String
deriving Repr, DecidableEq

/-- The value installed as `kafkaConfig.Net.SASL.TokenProvider`: nothing, the
`Config` receiver itself (`aws-iam`), or a fresh `oauthbearerTokenProvider`
over the assembled `clientcredentials.Config`. -/
inductive TokenProviderSpec
  | noProvider
  | awsIam (c : Config)
  | oauthbearer (cc : ClientCredentialsConfig)
deriving Repr, DecidableEq

/-- The `kafkaConfig.Net.SASL` fields this code assigns. -/
structure SASLSettings where
  Enable : Bool
  Handshake : Bool
  Mechanism : String
  User : String
  Password : String
  TokenProvider : TokenProviderSpec
  SCRAMClientGeneratorHash : Option ScramHash
deriving Repr, DecidableEq

/-- The `kafkaConfig.Net.TLS` fields this code assigns. -/
structure NetTLSSettings where
  Enable : Bool
  Config : Option TLSConfig
deriving Repr, DecidableEq

/-- The fields of `sarama.Config` written by `newKafkaConfig` (timeouts in
seconds, as multiples of `time.Second`). -/
structure KafkaConfig where
  Version : KafkaVersion
  ClientID : String
  AdminTimeout : Int
  MetadataFull : Bool
  MetadataAllowAutoTopicCreation : Bool
  MetadataTimeout : Int
  ProxyEnable : Bool
  NetReadTimeout : Int
  NetWriteTimeout : Int
  NetSASL : SASLSettings
  NetTLS : NetTLSSettings
deriving Repr, DecidableEq

/-- `sarama.NewConfig()` defaults for the tracked fields (sarama sets
`Net.SASL.Enable = false`, `Net.SASL.Handshake = true`, plaintext mechanism,
`Version = MinVersion`; every field a claim depends on is explicitly
overwritten by `newKafkaConfig` except `Net.SASL.Enable` on the disabled
path). -/
def defaultKafkaConfig : KafkaConfig :=
  { Version := ⟨0, 8, 2, 0⟩
    ClientID := "sarama"
    AdminTimeout := 3
    MetadataFull := true
    MetadataAllowAutoTopicCreation := true
    MetadataTimeout := 60
    ProxyEnable := false
    NetReadTimeout := 30
    NetWriteTimeout := 30
    NetSASL := ⟨false, true, "PLAIN", "", "", .noProvider, none⟩
    NetTLS := ⟨false, none⟩ }

/-- Errors that `newKafkaConfig` returns to its caller (as opposed to the
`log.Fatalf` exits): the version parse failure of line 135 and the
`newTLSConfig` failure propagated at line 214. -/
inductive KafkaConfigError
  | unsupportedVersion (versionString : String)
  | tlsError (e : TLSError)
deriving Repr, DecidableEq

/-- Outcome of a configuration build: a `log.Fatalf` process exit carrying its
message, an error return, or a finished `sarama.Config`. -/
inductive BuildOutcome
  | fatal (msg : String)
  | failure (e : KafkaConfigError)
  | ok (cfg : KafkaConfig)
deriving Repr, DecidableEq

/-- Whether the build died on a `log.Fatalf` path. -/
def BuildOutcome.isFatal : BuildOutcome → Bool
  | .fatal _ => true
  | _ => false

/-- The finished configuration, when the build produced one. -/
def BuildOutcome.okConfig : BuildOutcome → Option KafkaConfig
  | .ok cfg => some cfg
  | _ => none

/-- Whether the build returned the version-parse error of line 135. -/
def BuildOutcome.isVersionFailure : BuildOutcome → Bool
  | .failure (.unsupportedVersion _) => true
  | _ => false

/-- Lines 132-140: parse a non-empty `KafkaVersion` string (error on parse
failure), else default to `V2_7_0_0`. -/
def versionStep (c : Config) (parse : String → Option KafkaVersion) :
    Except String KafkaVersion :=
  if c.KafkaVersion != "" then
    match parse c.KafkaVersion with
    | none => .error c.KafkaVersion
    | some v => .ok v
  else
    .ok V2_7_0_0

/-- Lines 154-204: the SASL selection switch. Only reached when
`c.saslEnabled()`; a `.error` result is a `log.Fatalf` message. After the
switch, `Enable` and `Handshake` are set unconditionally and the user and
password only when non-empty. -/
def saslStep (c : Config) (env : Env) (s : SASLSettings) :
    Except String SASLSettings :=
  let afterSwitch : Except String SASLSettings :=
    match c.SASLMechanism with
    | "scram-sha512" =>
      .ok { s with SCRAMClientGeneratorHash := some .sha512, Mechanism := "SCRAM-SHA-512" }
    | "scram-sha256" =>
      .ok { s with SCRAMClientGeneratorHash := some .sha256, Mechanism := "SCRAM-SHA-256" }
    | "aws-iam" =>
      let region := if c.SASLAWSRegion == "" then env.AWS_REGION else c.SASLAWSRegion
      if region == "" then
        .error "aws region must be configured or AWS_REGION environment variable must be set to use aws-iam sasl mechanism"
      else
        .ok { s with Mechanism := "OAUTHBEARER", TokenProvider := .awsIam c }
    | "oauthbearer" =>
      let tokenUrl := if c.SASLTokenUrl == "" then env.TOKEN_URL else c.SASLTokenUrl
      if tokenUrl == "" then
        .error "token url must be configured or TOKEN_URL environment variable must be set to use oauthbearer sasl mechanism"
      else
        .ok { s with Mechanism := "OAUTHBEARER",
                     TokenProvider := .oauthbearer ⟨tokenUrl, c.SASLUsername, c.SASLPassword, c.SASLOAuthScopes⟩ }
    | "plain" => .ok s
    | other => .error ("Invalid sasl mechanism \"" ++ other ++ "\": can only be \"scram-sha256\", \"scram-sha512\", \"aws-iam\" or \"plain\"")
  match afterSwitch with
  | .error msg => .error msg
  | .ok s0 =>
    let s1 := { s0 with Enable := true, Handshake := true }
    let s2 := if c.SASLUsername != "" then { s1 with User := c.SASLUsername } else s1
    let s3 := if c.SASLPassword != "" then { s2 with Password := c.SASLPassword } else s2
    .ok s3

/-- Lines 142-152: the unconditional field assignments following the version
step. -/
def baseKafkaConfig (c : Config) (version : KafkaVersion) : KafkaConfig :=
  { defaultKafkaConfig with
      Version := version
      ClientID := "terraform-provider-kafka"
      AdminTimeout := c.Timeout
      MetadataFull := true
      MetadataAllowAutoTopicCreation := false
      ProxyEnable := true
      NetReadTimeout := c.Timeout
      NetWriteTimeout := c.Timeout
      MetadataTimeout := c.Timeout }

/-- Lines 206-220: when `c.TLSEnabled`, run `newTLSConfig`, propagate its
error, and otherwise install the TLS context with `InsecureSkipVerify`
applied last. -/
def tlsStage (c : Config) (w : TLSWorld) (cfg1 : KafkaConfig) : BuildOutcome :=
  if c.TLSEnabled then
    match newTLSConfig w c.ClientCert c.ClientCertKey c.CACert c.ClientCertKeyPassphrase with
    | (_, some e) => .failure (.tlsError e)
    | (tlsCfg, none) =>
      .ok { cfg1 with
              NetTLS := ⟨true, some { tlsCfg with InsecureSkipVerify := c.SkipTLSVerify }⟩ }
  else
    .ok cfg1

/-- Lines 142-222: everything after a successful version step — base
assignments, the SASL block guarded by `c.saslEnabled()` (line 154, with the
disabled case merely logged at line 203), then the TLS block. -/
def assembleAfterVersion (c : Config) (env : Env) (w : TLSWorld)
    (version : KafkaVersion) : BuildOutcome :=
  match (if c.saslEnabled then saslStep c env (baseKafkaConfig c version).NetSASL
         else .ok (baseKafkaConfig c version).NetSASL) with
  | .error msg => .fatal msg
  | .ok sasl => tlsStage c w { baseKafkaConfig c version with NetSASL := sasl }

/-- `(c *Config) newKafkaConfig()` from `kafka/config.go` lines 129-223:
version step, unconditional assignments, SASL step when `saslEnabled`, TLS
step when `TLSEnabled`. -/
def Config.newKafkaConfig (c : Config)
    (parse : String → Option KafkaProvider.KafkaVersion)
    (env : Env) (w : TLSWorld) : BuildOutcome :=
  match versionStep c parse with
  | .error s => .failure (.unsupportedVersion s)
  | .ok version => assembleAfterVersion c env w version

/-! ### Concrete fixtures

Closed instantiations used by counterexamples and witnesses: a world in which
no string decodes as PEM and no file exists, a version parser accepting
nothing, and small concrete configurations. -/

/-- A `TLSWorld` with no valid PEM text, no readable files, no system pool,
and a pool that accepts nothing. -/
def barrenWorld : TLSWorld :=
  { pemDecode := fun _ => none
    readFile := fun _ => .error "open: no such file or directory"
    isEncryptedPEMBlock := fun _ => false
    decryptPEMBlock := fun _ _ => .error "decryption failed"
    pemEncodeToMemory := fun b => b.bytes
    x509KeyPair := fun _ _ => .error "tls: failed to find any PEM data"
    systemCertPool := none
    appendCertsFromPEM := fun p _ => (p, false) }

/-- A version parser that accepts no string (irrelevant whenever the version
field is empty). -/
def noParse : String → Option KafkaVersion := fun _ => none

/-! ## Claims -/

/-! ### Helper lemmas about the assembly stages -/

theorem versionStep_empty (c : Config) (parse : String → Option KafkaVersion)
    (h : c.KafkaVersion = "") : versionStep c parse = .ok V2_7_0_0 := by
  unfold versionStep
  simp [h]

theorem versionStep_parsed (c : Config) (parse : String → Option KafkaVersion)
    (v : KafkaVersion) (hne : c.KafkaVersion ≠ "")
    (h : parse c.KafkaVersion = some v) : versionStep c parse = .ok v := by
  unfold versionStep
  simp [hne, h]

theorem versionStep_failed (c : Config) (parse : String → Option KafkaVersion)
    (hne : c.KafkaVersion ≠ "") (h : parse c.KafkaVersion = none) :
    versionStep c parse = .error c.KafkaVersion := by
  unfold versionStep
  simp [hne, h]

theorem newKafkaConfig_of_versionStep_error (c : Config)
    (parse : String → Option KafkaVersion) (env : Env) (w : TLSWorld)
    (s : String) (h : versionStep c parse = .error s) :
    c.newKafkaConfig parse env w = .failure (.unsupportedVersion s) := by
  unfold Config.newKafkaConfig
  rw [h]

theorem newKafkaConfig_of_versionStep_ok (c : Config)
    (parse : String → Option KafkaVersion) (env : Env) (w : TLSWorld)
    (v : KafkaVersion) (h : versionStep c parse = .ok v) :
    c.newKafkaConfig parse env w = assembleAfterVersion c env w v := by
  unfold Config.newKafkaConfig
  rw [h]

theorem tlsStage_not_fatal (c : Config) (w : TLSWorld) (cfg1 : KafkaConfig) :
    (tlsStage c w cfg1).isFatal = false := by
  unfold tlsStage
  split
  · split <;> rfl
  · rfl

theorem tlsStage_not_versionFailure (c : Config) (w : TLSWorld)
    (cfg1 : KafkaConfig) : (tlsStage c w cfg1).isVersionFailure = false := by
  unfold tlsStage
  split
  · split <;> rfl
  · rfl

theorem tlsStage_okConfig (c : Config) (w : TLSWorld) (cfg1 cfg : KafkaConfig)
    (h : (tlsStage c w cfg1).okConfig = some cfg) :
    cfg.Version = cfg1.Version ∧ cfg.NetSASL = cfg1.NetSASL := by
  unfold tlsStage at h
  split at h
  · split at h
    · simp [BuildOutcome.okConfig] at h
    · simp [BuildOutcome.okConfig] at h
      subst h
      exact ⟨rfl, rfl⟩
  · simp [BuildOutcome.okConfig] at h
    subst h
    exact ⟨rfl, rfl⟩

theorem saslStep_ok_flags (c : Config) (env : Env) (s s' : SASLSettings)
    (h : saslStep c env s = .ok s') : s'.Enable = true ∧ s'.Handshake = true := by
  unfold saslStep at h
  simp only [] at h
  repeat' split at h
  all_goals cases h
  all_goals exact ⟨rfl, rfl⟩

theorem assembleAfterVersion_not_versionFailure (c : Config) (env : Env)
    (w : TLSWorld) (version : KafkaVersion) :
    (assembleAfterVersion c env w version).isVersionFailure = false := by
  unfold assembleAfterVersion
  split
  · rfl
  · exact tlsStage_not_versionFailure c w _

theorem assembleAfterVersion_fatal_of_saslStep_error (c : Config) (env : Env)
    (w : TLSWorld) (version : KafkaVersion) (msg : String)
    (hen : c.saslEnabled = true)
    (hss : saslStep c env (baseKafkaConfig c version).NetSASL = .error msg) :
    assembleAfterVersion c env w version = .fatal msg := by
  unfold assembleAfterVersion
  rw [hen]
  simp only [if_true]
  rw [hss]

theorem assembleAfterVersion_okConfig (c : Config) (env : Env) (w : TLSWorld)
    (version : KafkaVersion) (cfg : KafkaConfig)
    (h : (assembleAfterVersion c env w version).okConfig = some cfg) :
    cfg.Version = version ∧
    (c.saslEnabled = true →
      saslStep c env (baseKafkaConfig c version).NetSASL = .ok cfg.NetSASL) ∧
    (c.saslEnabled = false →
      cfg.NetSASL = (baseKafkaConfig c version).NetSASL) := by
  unfold assembleAfterVersion at h
  cases hen : c.saslEnabled with
  | true =>
    rw [hen] at h
    simp only [if_true] at h
    cases hss : saslStep c env (baseKafkaConfig c version).NetSASL with
    | error msg =>
      rw [hss] at h
      simp [BuildOutcome.okConfig] at h
    | ok sasl =>
      rw [hss] at h
      obtain ⟨hv, hs⟩ := tlsStage_okConfig c w _ cfg h
      refine ⟨hv, fun _ => ?_, fun hfalse => by cases hfalse⟩
      rw [hs]
  | false =>
    rw [hen] at h
    simp only [Bool.false_eq_true, if_false] at h
    obtain ⟨hv, hs⟩ := tlsStage_okConfig c w _ cfg h
    exact ⟨hv, fun htrue => (Bool.false_ne_true htrue).elim, fun _ => hs⟩

theorem saslStep_unknown_mechanism_error (c : Config) (env : Env)
    (s : SASLSettings)
    (h : c.SASLMechanism ∉
      (["plain", "scram-sha256", "scram-sha512", "aws-iam", "oauthbearer"] :
        List String)) :
    saslStep c env s =
      .error ("Invalid sasl mechanism \"" ++ c.SASLMechanism ++
        "\": can only be \"scram-sha256\", \"scram-sha512\", \"aws-iam\" or \"plain\"") := by
  unfold saslStep
  split <;> simp_all

theorem saslStep_aws_region_missing (c : Config) (env : Env) (s : SASLSettings)
    (hmech : c.SASLMechanism = "aws-iam") (hreg : c.SASLAWSRegion = "")
    (henv : env.AWS_REGION = "") :
    saslStep c env s =
      .error "aws region must be configured or AWS_REGION environment variable must be set to use aws-iam sasl mechanism" := by
  unfold saslStep
  split <;> simp_all

theorem saslStep_token_url_missing (c : Config) (env : Env) (s : SASLSettings)
    (hmech : c.SASLMechanism = "oauthbearer") (hurl : c.SASLTokenUrl = "")
    (henv : env.TOKEN_URL = "") :
    saslStep c env s =
      .error "token url must be configured or TOKEN_URL environment variable must be set to use oauthbearer sasl mechanism" := by
  unfold saslStep
  split <;> simp_all

/-- Concrete configuration for the C3 counterexample: a client TLS key and an
AWS session token are set. -/
def maskCexConfig : Config :=
  { emptyConfig with ClientCertKey := "client-key-material",
                     SASLAWSToken := "aws-session-token" }

/-- C3 counterexample: `copyWithMaskedSensitiveValues` does not leave "every
other field byte-identical" — `ClientCertKey`, the client TLS private key,
which is neither a password, a passphrase, nor an AWS secret-like field, is
replaced by the marker; meanwhile `SASLAWSToken`, the AWS session token, is
passed through in plaintext rather than replaced. -/
theorem C3_mask_counterexample :
    maskCexConfig.ClientCertKey = "client-key-material" ∧
    maskCexConfig.copyWithMaskedSensitiveValues.ClientCertKey ≠
      maskCexConfig.ClientCertKey ∧
    maskCexConfig.SASLAWSToken = "aws-session-token" ∧
    maskCexConfig.copyWithMaskedSensitiveValues.SASLAWSToken =
      "aws-session-token" := by
  decide

/-- C3 amended: the masked projection replaces exactly `ClientCertKey`,
`ClientCertKeyPassphrase`, `SASLPassword`, `SASLAWSExternalId` and
`SASLAWSSecretKey` with the fixed marker `"*****"`; every other field —
including the AWS session token `SASLAWSToken` — is byte-identical to the
source configuration. -/
theorem C3_mask_amended (config : Config) :
    config.copyWithMaskedSensitiveValues =
      { config with
          ClientCertKey := "*****"
          ClientCertKeyPassphrase := "*****"
          SASLPassword := "*****"
          SASLAWSExternalId := "*****"
          SASLAWSSecretKey := "*****" } :=
  rfl

/-- C6: a `Token()` call on the cached provider returns the cached token,
leaves the state unchanged and performs no exchange exactly when the cached
token is non-empty and the current time is before expiry minus the 2-second
margin; otherwise it performs the exchange and, on success, returns the fresh
token and caches it together with its expiry. -/
theorem C6_oauth_token_cache (o : OauthbearerTokenProvider) (now : Int)
    (exchange : Except String OAuth2Token) :
    (o.token ≠ "" ∧ now < o.tokenExpiration - 2 →
      o.tokenCall now exchange = ⟨o.token, none, o, false⟩) ∧
    (¬(o.token ≠ "" ∧ now < o.tokenExpiration - 2) →
      (o.tokenCall now exchange).exchanged = true ∧
      ∀ t, exchange = .ok t →
        o.tokenCall now exchange =
          ⟨t.AccessToken, none, ⟨t.Expiry, t.AccessToken⟩, true⟩) := by
  unfold OauthbearerTokenProvider.tokenCall
  constructor
  · rintro ⟨h1, h2⟩
    simp [h1, h2]
  · intro h
    have hcond : (o.token != "" && decide (now < o.tokenExpiration - 2)) = false := by
      by_cases h1 : o.token = "" <;> by_cases h2 : now < o.tokenExpiration - 2 <;>
        simp_all
    rw [hcond]
    simp only [Bool.false_eq_true, if_false]
    cases exchange with
    | ok t => exact ⟨rfl, fun t' ht => by cases ht; rfl⟩
    | error e => exact ⟨rfl, fun t' ht => by cases ht⟩

/-- C6 witness: at time 50 with a cached token expiring at 100 the cached
value is returned, and with an expired cache the exchange result is cached. -/
theorem C6_oauth_token_cache_witness :
    OauthbearerTokenProvider.tokenCall ⟨100, "cached"⟩ 50 (.ok ⟨"fresh", 200⟩) =
      ⟨"cached", none, ⟨100, "cached"⟩, false⟩ ∧
    OauthbearerTokenProvider.tokenCall ⟨100, "cached"⟩ 99 (.ok ⟨"fresh", 200⟩) =
      ⟨"fresh", none, ⟨200, "fresh"⟩, true⟩ :=
  ⟨(C6_oauth_token_cache ⟨100, "cached"⟩ 50 (.ok ⟨"fresh", 200⟩)).1
      ⟨by decide, by decide⟩,
   ((C6_oauth_token_cache ⟨100, "cached"⟩ 99 (.ok ⟨"fresh", 200⟩)).2
      (by decide)).2 ⟨"fresh", 200⟩ rfl⟩

/-- C8: the material loader first tries the input as inline PEM — on success
it returns that block with the input bytes and reads no file; only on inline
failure does it read the input as a path, failing with the read error
(`MaterialNotFound`) when the path cannot be read, failing with
`InvalidEncoding` when the file contents do not decode either, and returning
the decoded block with the file contents otherwise. -/
theorem C8_pem_loader (w : TLSWorld) (input : String) :
    (∀ b, w.pemDecode input = some b →
      parsePemOrLoadFromFile w input = (.ok (b, input), [])) ∧
    (w.pemDecode input = none →
      (∀ e, w.readFile input = .error e →
        parsePemOrLoadFromFile w input = (.error (.materialNotFound e), [input])) ∧
      (∀ contents, w.readFile input = .ok contents →
        (w.pemDecode contents = none →
          parsePemOrLoadFromFile w input = (.error .invalidEncoding, [input])) ∧
        (∀ b, w.pemDecode contents = some b →
          parsePemOrLoadFromFile w input = (.ok (b, contents), [input])))) := by
  unfold parsePemOrLoadFromFile
  refine ⟨fun b hb => by simp [hb], fun hnone => ?_⟩
  refine ⟨fun e he => by simp [hnone, he], fun contents hc => ?_⟩
  exact ⟨fun hn => by simp [hnone, hc, hn], fun b hb => by simp [hnone, hc, hb]⟩

/-- A world for the C8 witness: the string "inline-pem" decodes inline, the
string "on-disk" is a readable file whose contents decode, and nothing else
decodes or exists. -/
def pemTestWorld : TLSWorld :=
  { barrenWorld with
      pemDecode := fun s =>
        if s = "inline-pem" then some ⟨"CERTIFICATE", "inline-bytes"⟩
        else if s = "file-contents" then some ⟨"CERTIFICATE", "file-bytes"⟩
        else none
      readFile := fun s =>
        if s = "on-disk" then .ok "file-contents"
        else .error "open: no such file or directory" }

/-- C8 witness: in `pemTestWorld`, inline text loads without touching a file,
and a path loads through exactly one file read. -/
theorem C8_pem_loader_witness :
    parsePemOrLoadFromFile pemTestWorld "inline-pem" =
      (.ok (⟨"CERTIFICATE", "inline-bytes"⟩, "inline-pem"), []) ∧
    parsePemOrLoadFromFile pemTestWorld "on-disk" =
      (.ok (⟨"CERTIFICATE", "file-bytes"⟩, "file-contents"), ["on-disk"]) :=
  ⟨(C8_pem_loader pemTestWorld "inline-pem").1 ⟨"CERTIFICATE", "inline-bytes"⟩
      (by decide),
   (((C8_pem_loader pemTestWorld "on-disk").2 (by decide)).2 "file-contents"
      rfl).2 ⟨"CERTIFICATE", "file-bytes"⟩ (by decide)⟩

/-- C10: when exactly one of `clientCert` and `clientKey` is non-empty, the
builder skips the client-certificate stage (independently of the file system
and PEM oracles, so the lone credential is never even inspected) and with an
empty `caCert` returns the zero context — no certificates, no trust pool, no
error. -/
theorem C10_lone_client_credential (w : TLSWorld)
    (clientCert clientKey clientKeyPassphrase : String)
    (h : (clientCert = "" ∧ clientKey ≠ "") ∨ (clientCert ≠ "" ∧ clientKey = "")) :
    newTLSConfig w clientCert clientKey "" clientKeyPassphrase =
      (⟨[], none, false⟩, none) := by
  unfold newTLSConfig clientCertStage
  rcases h with ⟨h1, h2⟩ | ⟨h1, h2⟩ <;> simp [h1, h2]

/-- C10 witness: a key with no certificate is silently ignored. -/
theorem C10_lone_client_credential_witness :
    newTLSConfig barrenWorld "" "client-key.pem" "" "" =
      (⟨[], none, false⟩, none) :=
  C10_lone_client_credential barrenWorld "" "client-key.pem" ""
    (Or.inl ⟨rfl, by decide⟩)

/-- C4 counterexample: with an empty `caCert` but both client credentials set
to strings that neither decode as PEM nor name a readable file, the builder
does return an error — the client-certificate stage runs and fails before the
empty-CA early return is reached. -/
theorem C4_counterexample :
    (newTLSConfig barrenWorld "not-a-pem-cert" "not-a-pem-key" "" "").2 ≠
      none := by
  decide

/-- C4 amended: with an empty `caCert` the returned context never carries an
explicit trust pool (system trust applies), and the builder returns no error
provided the client-certificate stage does not itself fail — in particular
whenever `clientCert` or `clientKey` is empty, or both load and pair
successfully. -/
theorem C4_empty_ca_amended (w : TLSWorld)
    (clientCert clientKey clientKeyPassphrase : String) :
    (newTLSConfig w clientCert clientKey "" clientKeyPassphrase).1.RootCAs =
      none ∧
    ((∃ certs, clientCertStage w clientCert clientKey clientKeyPassphrase =
        .ok certs) →
      (newTLSConfig w clientCert clientKey "" clientKeyPassphrase).2 = none) := by
  unfold newTLSConfig
  cases hcs : clientCertStage w clientCert clientKey clientKeyPassphrase with
  | error e => exact ⟨rfl, fun ⟨certs, hok⟩ => by cases hok⟩
  | ok certs => exact ⟨rfl, fun _ => rfl⟩

/-- C4 witness: with no client credentials and no CA, the builder yields the
system-trust context and no error. -/
theorem C4_empty_ca_amended_witness :
    (newTLSConfig barrenWorld "" "" "" "").1.RootCAs = none ∧
    (newTLSConfig barrenWorld "" "" "" "").2 = none :=
  ⟨(C4_empty_ca_amended barrenWorld "" "" "").1,
   (C4_empty_ca_amended barrenWorld "" "" "").2 ⟨[], rfl⟩⟩

/-- The spec's first-match search over the precedence list, written out as
the corresponding nested conditional. -/
theorem specAwsStrategy_cases (c : Config) :
    specAwsStrategy c =
      if awsStrategyApplies c .container then .container
      else if awsStrategyApplies c .role then .role
      else if awsStrategyApplies c .namedProfile then .namedProfile
      else if awsStrategyApplies c .staticKeys then .staticKeys
      else .defaultChain := by
  have hdef : awsStrategyApplies c .defaultChain = true := rfl
  unfold specAwsStrategy specAwsPrecedenceOrder
  cases hc : awsStrategyApplies c .container <;>
    cases hr : awsStrategyApplies c .role <;>
      cases hp : awsStrategyApplies c .namedProfile <;>
        cases hs : awsStrategyApplies c .staticKeys <;>
          simp [List.find?, hc, hr, hp, hs, hdef]

/-- The code's strategy selection, coarsened to the spec's enumeration, as
the same nested conditional. -/
theorem tokenStrategy_toClass (c : Config) :
    c.tokenStrategy.toClass =
      if c.SASLAWSContainerAuthorizationTokenFile != "" &&
          c.SASLAWSContainerCredentialsFullUri != "" then .container
      else if c.SASLAWSRoleArn != "" then .role
      else if c.SASLAWSProfile != "" then .namedProfile
      else if c.SASLAWSAccessKey != "" && c.SASLAWSSecretKey != "" then
        .staticKeys
      else .defaultChain := by
  unfold Config.tokenStrategy
  simp only [apply_ite AwsCredStrategy.toClass]
  simp only [AwsCredStrategy.toClass, ite_self]

/-- C5: `Config.Token` selects exactly the first applicable strategy of the
spec's fixed precedence list (container endpoint, role ARN, named profile,
static keys, default chain); in particular, when a role ARN and a profile are
both supplied and the container strategy does not apply, the role-ARN
strategy is used. -/
theorem C5_aws_token_precedence (c : Config) :
    c.tokenStrategy.toClass = specAwsStrategy c ∧
    (c.SASLAWSRoleArn ≠ "" → c.SASLAWSProfile ≠ "" →
      ¬(c.SASLAWSContainerAuthorizationTokenFile ≠ "" ∧
        c.SASLAWSContainerCredentialsFullUri ≠ "") →
      c.tokenStrategy = .roleArn) := by
  constructor
  · rw [tokenStrategy_toClass, specAwsStrategy_cases]
    simp only [awsStrategyApplies]
  · intro hrole hprof hcont
    unfold Config.tokenStrategy
    have h1 : (c.SASLAWSContainerAuthorizationTokenFile != "" &&
        c.SASLAWSContainerCredentialsFullUri != "") = false := by
      rcases not_and_or.mp hcont with h | h <;> simp_all
    rw [h1]
    simp [hrole]

/-- C5 witness: role ARN together with a profile resolves via the role-ARN
strategy, and the selection agrees with the spec's first-match list. -/
theorem C5_aws_token_precedence_witness :
    Config.tokenStrategy
        { emptyConfig with SASLAWSRoleArn := "arn:aws:iam::123456789012:role/msk",
                           SASLAWSProfile := "dev" } = .roleArn ∧
    (Config.tokenStrategy
        { emptyConfig with SASLAWSRoleArn := "arn:aws:iam::123456789012:role/msk",
                           SASLAWSProfile := "dev" }).toClass =
      specAwsStrategy
        { emptyConfig with SASLAWSRoleArn := "arn:aws:iam::123456789012:role/msk",
                           SASLAWSProfile := "dev" } :=
  ⟨(C5_aws_token_precedence _).2 (by decide) (by decide) (by decide),
   (C5_aws_token_precedence
      { emptyConfig with SASLAWSRoleArn := "arn:aws:iam::123456789012:role/msk",
                         SASLAWSProfile := "dev" }).1⟩

/-- Configuration for the C1 counterexample: mechanism `"plain"`, no
credentials. -/
def plainNoCredsConfig : Config := { emptyConfig with SASLMechanism := "plain" }

/-- C1 counterexample: with mechanism `"plain"` and empty username and
password, the mechanism field is non-empty and yet the build treats SASL as
fully disabled (the assembled configuration has `Net.SASL.Enable = false`) —
so "disabled exactly when username, password and mechanism are all empty"
fails. -/
theorem C1_sasl_disabled_counterexample :
    plainNoCredsConfig.SASLMechanism ≠ "" ∧
    plainNoCredsConfig.saslEnabled = false ∧
    (plainNoCredsConfig.newKafkaConfig noParse emptyEnv barrenWorld).okConfig.map
        (fun k => k.NetSASL.Enable) = some false := by
  decide

/-- C1 amended: the build treats SASL as fully disabled exactly when the
username and password are both empty and the mechanism is not `"aws-iam"`
(so a bare non-`aws-iam` mechanism with no credentials is also disabled);
whenever SASL is enabled and the build assembles a configuration, the SASL
enable and handshake flags are both set, and whenever SASL is disabled the
assembled configuration has the enable flag unset. -/
theorem C1_sasl_enabled_amended (c : Config)
    (parse : String → Option KafkaVersion) (env : Env) (w : TLSWorld) :
    (c.saslEnabled = false ↔
      (c.SASLUsername = "" ∧ c.SASLPassword = "" ∧ c.SASLMechanism ≠ "aws-iam")) ∧
    (∀ cfg, (c.newKafkaConfig parse env w).okConfig = some cfg →
      (c.saslEnabled = true →
        cfg.NetSASL.Enable = true ∧ cfg.NetSASL.Handshake = true) ∧
      (c.saslEnabled = false → cfg.NetSASL.Enable = false)) := by
  constructor
  · unfold Config.saslEnabled
    simp [not_or, and_assoc]
  · intro cfg h
    cases hv : versionStep c parse with
    | error s =>
      rw [newKafkaConfig_of_versionStep_error c parse env w s hv] at h
      simp [BuildOutcome.okConfig] at h
    | ok v =>
      rw [newKafkaConfig_of_versionStep_ok c parse env w v hv] at h
      obtain ⟨-, hsasl, hdis⟩ := assembleAfterVersion_okConfig c env w v cfg h
      refine ⟨fun hen => ?_, fun hfalse => ?_⟩
      · exact saslStep_ok_flags c env _ _ (hsasl hen)
      · rw [hdis hfalse]
        rfl

/-- Configuration for the C1 witness: mechanism `"plain"` with a username. -/
def plainUserConfig : Config :=
  { emptyConfig with SASLUsername := "alice", SASLMechanism := "plain" }

/-- The configuration assembled from `plainUserConfig`. -/
def plainUserBuild : KafkaConfig :=
  { defaultKafkaConfig with
      Version := V2_7_0_0
      ClientID := "terraform-provider-kafka"
      AdminTimeout := 0
      MetadataAllowAutoTopicCreation := false
      ProxyEnable := true
      NetReadTimeout := 0
      NetWriteTimeout := 0
      MetadataTimeout := 0
      NetSASL := ⟨true, true, "PLAIN", "alice", "", .noProvider, none⟩ }

/-- C1 witness: a SASL-enabled build sets both flags. -/
theorem C1_sasl_enabled_amended_witness :
    plainUserConfig.saslEnabled = true ∧
    plainUserBuild.NetSASL.Enable = true ∧
    plainUserBuild.NetSASL.Handshake = true :=
  ⟨by decide,
   ((C1_sasl_enabled_amended plainUserConfig noParse emptyEnv barrenWorld).2
      plainUserBuild (by decide)).1 (by decide)⟩

/-- Configuration for the C2 counterexample: mechanism `"bogus"`, no
credentials. -/
def bogusNoCredsConfig : Config := { emptyConfig with SASLMechanism := "bogus" }

/-- C2 counterexample: with mechanism `"bogus"` but empty username and
password, `saslEnabled()` is false, the switch never runs, and the build
completes without taking the fatal path — refuting "for every configuration
whose mechanism is not one of the five known names, the build takes the
fatal UnknownMechanism path". -/
theorem C2_unknown_mechanism_counterexample :
    bogusNoCredsConfig.SASLMechanism ∉
      (["plain", "scram-sha256", "scram-sha512", "aws-iam", "oauthbearer"] :
        List String) ∧
    (bogusNoCredsConfig.newKafkaConfig noParse emptyEnv barrenWorld).isFatal =
      false ∧
    (bogusNoCredsConfig.newKafkaConfig noParse emptyEnv barrenWorld).okConfig.isSome =
      true := by
  decide

/-- C2 amended: for every configuration with SASL enabled (username or
password non-empty) whose mechanism is none of plain, scram-sha256,
scram-sha512, aws-iam, oauthbearer, and whose version step does not already
fail, the build takes the fatal invalid-mechanism path and never continues
as if the mechanism were plain. -/
theorem C2_unknown_mechanism_amended (c : Config)
    (parse : String → Option KafkaVersion) (env : Env) (w : TLSWorld)
    (hmech : c.SASLMechanism ∉
      (["plain", "scram-sha256", "scram-sha512", "aws-iam", "oauthbearer"] :
        List String))
    (hcreds : c.SASLUsername ≠ "" ∨ c.SASLPassword ≠ "")
    (hver : ∃ v, versionStep c parse = .ok v) :
    (c.newKafkaConfig parse env w).isFatal = true := by
  obtain ⟨v, hv⟩ := hver
  rw [newKafkaConfig_of_versionStep_ok c parse env w v hv]
  have hen : c.saslEnabled = true := by
    rcases hcreds with h | h <;> simp [Config.saslEnabled, h]
  rw [assembleAfterVersion_fatal_of_saslStep_error c env w v _ hen
    (saslStep_unknown_mechanism_error c env _ hmech)]
  rfl

/-- C2 witness: mechanism `"bogus"` with a username is fatal. -/
theorem C2_unknown_mechanism_amended_witness :
    (Config.newKafkaConfig
      { emptyConfig with SASLMechanism := "bogus", SASLUsername := "u" }
      noParse emptyEnv barrenWorld).isFatal = true :=
  C2_unknown_mechanism_amended
    { emptyConfig with SASLMechanism := "bogus", SASLUsername := "u" }
    noParse emptyEnv barrenWorld (by decide) (Or.inl (by decide))
    ⟨V2_7_0_0, rfl⟩

/-- Configuration for the C7 counterexample: mechanism `"oauthbearer"`, no
credentials, no token URL. -/
def oauthNoCredsConfig : Config :=
  { emptyConfig with SASLMechanism := "oauthbearer" }

/-- C7 counterexample: with mechanism `"oauthbearer"`, empty token URL and
the `TOKEN_URL` variable unset, but also empty username and password, the
build is not fatal — `saslEnabled()` is false and the selector never runs —
refuting the oauthbearer half of the claim as stated. -/
theorem C7_missing_parameter_counterexample :
    oauthNoCredsConfig.SASLMechanism = "oauthbearer" ∧
    oauthNoCredsConfig.SASLTokenUrl = "" ∧
    emptyEnv.TOKEN_URL = "" ∧
    (oauthNoCredsConfig.newKafkaConfig noParse emptyEnv barrenWorld).isFatal =
      false := by
  decide

/-- C7 amended: provided the version step does not already fail, a
configuration with mechanism `"aws-iam"` and no region (field and
environment both empty) is a fatal build error, and a configuration with
mechanism `"oauthbearer"`, SASL enabled (username or password non-empty) and
no token URL (field and environment both empty) is a fatal build error; in
either case no transport configuration is produced. -/
theorem C7_missing_parameter_amended (c : Config)
    (parse : String → Option KafkaVersion) (env : Env) (w : TLSWorld)
    (hver : ∃ v, versionStep c parse = .ok v) :
    (c.SASLMechanism = "aws-iam" → c.SASLAWSRegion = "" →
      env.AWS_REGION = "" →
      (c.newKafkaConfig parse env w).isFatal = true ∧
      (c.newKafkaConfig parse env w).okConfig = none) ∧
    (c.SASLMechanism = "oauthbearer" →
      (c.SASLUsername ≠ "" ∨ c.SASLPassword ≠ "") →
      c.SASLTokenUrl = "" → env.TOKEN_URL = "" →
      (c.newKafkaConfig parse env w).isFatal = true ∧
      (c.newKafkaConfig parse env w).okConfig = none) := by
  obtain ⟨v, hv⟩ := hver
  rw [newKafkaConfig_of_versionStep_ok c parse env w v hv]
  constructor
  · intro hmech hreg henv
    have hen : c.saslEnabled = true := by
      simp [Config.saslEnabled, hmech]
    rw [assembleAfterVersion_fatal_of_saslStep_error c env w v _ hen
      (saslStep_aws_region_missing c env _ hmech hreg henv)]
    exact ⟨rfl, rfl⟩
  · intro hmech hcreds hurl henv
    have hen : c.saslEnabled = true := by
      rcases hcreds with h | h <;> simp [Config.saslEnabled, h]
    rw [assembleAfterVersion_fatal_of_saslStep_error c env w v _ hen
      (saslStep_token_url_missing c env _ hmech hurl henv)]
    exact ⟨rfl, rfl⟩

/-- C7 witness: `aws-iam` with no region anywhere is fatal. -/
theorem C7_missing_parameter_amended_witness :
    (Config.newKafkaConfig { emptyConfig with SASLMechanism := "aws-iam" }
      noParse emptyEnv barrenWorld).isFatal = true :=
  (((C7_missing_parameter_amended
      { emptyConfig with SASLMechanism := "aws-iam" }
      noParse emptyEnv barrenWorld ⟨V2_7_0_0, rfl⟩).1 rfl rfl rfl)).1

/-- C9: the build returns the version-parse failure exactly when the version
string is non-empty and the parser rejects it; an assembled configuration
carries the baseline `V2_7_0_0` when the version string is empty and the
parsed version when the parser accepts it. -/
theorem C9_version_selection (c : Config)
    (parse : String → Option KafkaVersion) (env : Env) (w : TLSWorld) :
    ((c.newKafkaConfig parse env w).isVersionFailure = true ↔
      (c.KafkaVersion ≠ "" ∧ parse c.KafkaVersion = none)) ∧
    (∀ cfg, (c.newKafkaConfig parse env w).okConfig = some cfg →
      (c.KafkaVersion = "" → cfg.Version = V2_7_0_0) ∧
      (∀ v, c.KafkaVersion ≠ "" → parse c.KafkaVersion = some v →
        cfg.Version = v)) := by
  by_cases hk : c.KafkaVersion = ""
  · have hv := versionStep_empty c parse hk
    rw [newKafkaConfig_of_versionStep_ok c parse env w _ hv]
    constructor
    · rw [assembleAfterVersion_not_versionFailure]
      simp [hk]
    · intro cfg h
      obtain ⟨hver, -, -⟩ := assembleAfterVersion_okConfig c env w _ cfg h
      exact ⟨fun _ => hver, fun v hne _ => (hne hk).elim⟩
  · cases hp : parse c.KafkaVersion with
    | none =>
      have hv := versionStep_failed c parse hk hp
      rw [newKafkaConfig_of_versionStep_error c parse env w _ hv]
      refine ⟨by simp [BuildOutcome.isVersionFailure, hk], ?_⟩
      intro cfg h
      simp [BuildOutcome.okConfig] at h
    | some v =>
      have hv := versionStep_parsed c parse v hk hp
      rw [newKafkaConfig_of_versionStep_ok c parse env w _ hv]
      constructor
      · rw [assembleAfterVersion_not_versionFailure]
        simp [hp]
      · intro cfg h
        obtain ⟨hver, -, -⟩ := assembleAfterVersion_okConfig c env w _ cfg h
        refine ⟨fun hempty => (hk hempty).elim, fun v' _ hp' => ?_⟩
        injection hp' with h'
        rw [hver, h']

/-- The configuration assembled from `emptyConfig`. -/
def emptyBuild : KafkaConfig :=
  { defaultKafkaConfig with
      Version := V2_7_0_0
      ClientID := "terraform-provider-kafka"
      AdminTimeout := 0
      MetadataAllowAutoTopicCreation := false
      ProxyEnable := true
      NetReadTimeout := 0
      NetWriteTimeout := 0
      MetadataTimeout := 0 }

/-- C9 witness: an empty version string assembles the baseline version. -/
theorem C9_version_selection_witness :
    emptyConfig.KafkaVersion = "" ∧ emptyBuild.Version = V2_7_0_0 :=
  ⟨rfl,
   ((C9_version_selection emptyConfig noParse emptyEnv barrenWorld).2
      emptyBuild (by decide)).1 rfl⟩

end KafkaProvider
